import Mathlib

/-!
Verification of the music-separator-api repository.

The repository has two Python source files:

* `run_separation.py` — the Separation Runner: `separate_music` validates the
  input path, invokes the external `demucs` tool via `subprocess.run`, parses
  the tool's stdout for the model name, and returns the output path (or `None`).
* `main.py` — the FastAPI Upload Handler: `POST /separate/` saves the uploaded
  file to `uploads/<filename>` and calls `separate_music` on it.

We shallowly embed both files below.  The external world (the filesystem and
the behaviour of the `demucs` subprocess) is an explicit parameter `Env`.
Python string/path operations are embedded by small executable functions whose
doc comments name the Python operation they translate.
-/

namespace MusicSep

/-- Auxiliary for single-character splitting: `acc` is the (reversed) current
piece. -/
def splitOnCharAux (sep : Char) : List Char → List Char → List (List Char)
  | [], acc => [acc.reverse]
  | c :: cs, acc =>
    if c = sep then acc.reverse :: splitOnCharAux sep cs []
    else splitOnCharAux sep cs (c :: acc)

/-- Python `s.split(sep)` for a one-character separator: splits at every
occurrence, keeping empty pieces (so `"a  b".split(" ") = ["a", "", "b"]` and
`"".split(" ") = [""]`). -/
def pySplit (sep : Char) (s : String) : List String :=
  (splitOnCharAux sep s.toList []).map String.mk

/-- `sub` is a prefix of `s` (on character lists). -/
def startsWithList : List Char → List Char → Bool
  | [], _ => true
  | _ :: _, [] => false
  | a :: as, b :: bs => a = b && startsWithList as bs

/-- `sub` occurs somewhere in `s` (on character lists). -/
def occursIn : List Char → List Char → Bool
  | sub, [] => sub.isEmpty
  | sub, c :: cs => startsWithList sub (c :: cs) || occursIn sub cs

/-- Python `sub in s`: substring containment. -/
def pyContains (sub s : String) : Bool :=
  occursIn sub.toList s.toList

/-- Python `s.splitlines()` (modelling only the `"\n"` terminator, the one the
tool's captured text output uses): split on `"\n"`, with no trailing empty
line when the string ends in a newline, and `[]` for the empty string. -/
def pySplitlines (s : String) : List String :=
  let cs := s.toList
  if cs = [] then []
  else
    let parts := splitOnCharAux '\n' cs []
    if cs.getLast? = some '\n' then (parts.dropLast).map String.mk
    else parts.map String.mk

/-- Python `s.strip(chars)`: remove from both ends every character that is in
`chars`. -/
def pyStrip (chars : List Char) (s : String) : String :=
  String.mk (((s.toList.dropWhile (fun c => chars.contains c)).reverse.dropWhile
    (fun c => chars.contains c)).reverse)

/-- Python `pathlib.Path.name`: the final path component (empty path pieces,
as from repeated or trailing `/`, are dropped by `Path`'s normalisation). -/
def pathName (p : String) : String :=
  ((pySplit '/' p).filter (fun s => s ≠ "")).getLastD ""

/-- Python `pathlib.Path.stem`: the final component without its suffix.  The
suffix is `name[i:]` where `i` is the index of the last `'.'`, provided
`0 < i < len(name) - 1`; otherwise there is no suffix. -/
def pathStem (p : String) : String :=
  let name := pathName p
  let cs := name.toList
  match cs.reverse.findIdx? (fun c => c = '.') with
  | none => name
  | some j =>
    let i := cs.length - 1 - j
    if 0 < i ∧ i < cs.length - 1 then String.mk (cs.take i) else name

/-- Python `pathlib.Path(base) / child`: joining with an absolute `child`
discards `base`. -/
def pathJoin (base child : String) : String :=
  if child.toList.headD ' ' = '/' then child else base ++ "/" ++ child

-- Sanity checks of the Python-operation embeddings on concrete values.
example : pySplitlines "a\nb\n" = ["a", "b"] := by decide
example : pySplitlines "" = [] := by decide
example : pySplitlines "a\n\nb" = ["a", "", "b"] := by decide
example : pySplit ' ' "a  b" = ["a", "", "b"] := by decide
example : pathStem "uploads/song.mp3" = "song" := by decide
example : pathStem "a.tar.gz" = "a.tar" := by decide
example : pathStem ".bashrc" = ".bashrc" := by decide
example : pyStrip ['\'', '.'] "'mymodel'." = "mymodel" := by decide
example : pyContains "Selected model" "INFO: Selected model is x" = true := by decide
example : pyContains "Selected model" "nothing here" = false := by decide

/-! ### The external tool and the environment -/

/-- The behaviour of the one `subprocess.run(["demucs", "-o", output_dir,
input_path], check=True, capture_output=True, text=True)` call that
`separate_music` performs:

* `notFound` — the `demucs` executable is not on the execution path, so
  `subprocess.run` raises `FileNotFoundError`;
* `run exitCode stdout stderr` — the tool ran, exited with `exitCode` and
  produced the captured `stdout` and `stderr`.  With `check=True`, a non-zero
  `exitCode` makes `subprocess.run` raise `CalledProcessError` carrying both
  captured streams. -/
inductive ToolResult where
  | notFound : ToolResult
  | run (exitCode : Nat) (stdout stderr : String) : ToolResult
deriving DecidableEq

/-- The external world seen by one call of `separate_music`: the filesystem
before the tool runs (`fsExists` = `Path.exists`, `isFile` = `Path.is_file`),
the behaviour of the tool invocation, and the filesystem after the tool ran
(`existsAfter` = `Path.exists`, used for the final-output-path check). -/
structure Env where
  fsExists : String → Bool
  isFile : String → Bool
  tool : ToolResult
  existsAfter : String → Bool

/-- The observable outcome of one `separate_music` call: the Python return
value (`ret`, `none` embedding Python `None`), whether the subprocess was
invoked at all (`invoked`), and the lines printed to the server log. -/
structure RunResult where
  ret : Option String
  invoked : Bool
  log : List String
deriving DecidableEq

/-! ### `run_separation.py` -/

/-- `run_separation.py` line 76: `"Selected model" in line or "default model"
in line`. -/
def hasMarker (line : String) : Bool :=
  pyContains "Selected model" line || pyContains "default model" line

/-- The `for line in result.stdout.splitlines()` loop, lines 74–81: it stops
(`break`) at the first line containing a marker. -/
def findMarkerLine : List String → Option String
  | [] => none
  | l :: ls => if hasMarker l then some l else findMarkerLine ls

/-- The characters stripped from the token: `strip("'.")`. -/
def stripChars : List Char := ['\'', '.']

/-- `run_separation.py` lines 73–81: start from the default `"htdemucs"`; on
the first marker line set `model_name = parts[-1].strip("'.")` where
`parts = line.split(" ")` (guarded by `len(parts) > 0`), then `break`. -/
def inferModelName (stdout : String) : String :=
  match findMarkerLine (pySplitlines stdout) with
  | none => "htdemucs"
  | some line =>
    match (pySplit ' ' line).getLast? with
    | none => "htdemucs"
    | some t => pyStrip stripChars t

/-- `run_separation.py` line 32: `output_dir = Path("separated_output")`. -/
def output_dir : String := "separated_output"

/-- `run_separation.py`, `separate_music(input_file)`, lines 6–107.

Control flow of the source: validate existence and regular-file-ness (early
`return None`, no subprocess); run the tool; on `FileNotFoundError` or
`CalledProcessError` print diagnostics and `return None`; on success infer the
model name from stdout, compose `output_dir / model_name / file_stem`, fall
back to `output_dir` when that path does not exist, else return it.  (The
`print(...resolve())` on line 91 shows the absolute form of the path; we log
the path itself, as absolutisation is outside the model.) -/
def separate_music (env : Env) (input_file : String) : RunResult :=
  if env.fsExists input_file = false then
    { ret := none, invoked := false,
      log := ["Error: File not found at '" ++ input_file ++ "'"] }
  else if env.isFile input_file = false then
    { ret := none, invoked := false,
      log := ["Error: Path '" ++ input_file ++ "' is a directory, not a file."] }
  else
    let file_stem := pathStem input_file
    let startLine := "Starting separation for: " ++ pathName input_file ++ "..."
    match env.tool with
    | ToolResult.notFound =>
      { ret := none, invoked := true,
        log := [startLine,
                "Error: 'demucs' command not found.",
                "Please ensure demucs is installed and your virtual environment is active."] }
    | ToolResult.run exitCode out err =>
      if exitCode = 0 then
        let model_name := inferModelName out
        let final_output_path := output_dir ++ "/" ++ model_name ++ "/" ++ file_stem
        if env.existsAfter final_output_path = false then
          { ret := some output_dir, invoked := true,
            log := [startLine, "Separation complete!",
                    "Warning: Could not find expected path '" ++ final_output_path
                      ++ "'. Returning base path."] }
        else
          { ret := some final_output_path, invoked := true,
            log := [startLine, "Separation complete!",
                    "Find your stems in: " ++ final_output_path] }
      else
        { ret := none, invoked := true,
          log := [startLine, "Error during separation:",
                  "--- STDOUT ---", out, "--- STDERR ---", err] }

/-! ### `main.py` -/

/-- An HTTP response of the `/separate/` endpoint: the success JSON
`{"message": ..., "output_path": ...}` or an `HTTPException`. -/
inductive Response where
  | ok (message outputPath : String) : Response
  | httpError (status : Nat) (detail : String) : Response
deriving DecidableEq

/-- The detail string of the 500 response the endpoint produces when
`separate_music` returns `None`.

`main.py` line 77 raises `HTTPException(500, "Separation failed. Check server
logs.")` *inside* the `try` block, so it is caught by the
`except Exception as e` clause on line 85 (FastAPI's `HTTPException` derives
from `Exception`, and the `except subprocess.CalledProcessError` clause does
not match it), and re-raised as `HTTPException(500, f"An unexpected error
occurred: {e}")`.  Starlette's `HTTPException.__str__` renders as
`f"{status_code}: {detail}"`, giving the detail below. -/
def separationFailedDetail : String :=
  "An unexpected error occurred: 500: Separation failed. Check server logs."

/-- `main.py`, `separate_audio_endpoint`, lines 38–98, after the upload has
been saved successfully (the save step itself is `saveUpload` below).

The saved file is at `Path("uploads") / file.filename`.  `separate_music` is
called on it; the source's `except subprocess.CalledProcessError` clause is
dead code, because `separate_music` already catches that exception internally
and returns `None` — so the endpoint only distinguishes `None` (500, see
`separationFailedDetail`) from a path (200 with the success JSON, whose
`output_path` is `str(...)` of the returned path). -/
def separate_audio_endpoint (env : Env) (filename : String) : Response :=
  let upload_path := pathJoin "uploads" filename
  match (separate_music env upload_path).ret with
  | none => Response.httpError 500 separationFailedDetail
  | some p => Response.ok "Separation complete!" p

/-- `main.py` lines 51–57: `upload_path = Path("uploads") / file.filename`,
then `upload_path.open("wb")` + `shutil.copyfileobj(file.file, buffer)`.
Opening with mode `"wb"` truncates any existing file at that path and the copy
writes exactly the uploaded bytes.  The filesystem is a map from path to file
bytes; a save replaces whatever was at the upload path. -/
def saveUpload (fs : String → Option (List Nat)) (filename : String)
    (bytes : List Nat) : String → Option (List Nat) :=
  fun p => if p = pathJoin "uploads" filename then some bytes else fs p

/-! ### The `__main__` block of `run_separation.py` -/

/-- Outcome of running `python run_separation.py <args>`. -/
inductive CliOutcome where
  | usage : CliOutcome
  | nameError (missing : String) : CliOutcome
deriving DecidableEq

/-- `run_separation.py` lines 109–126.  With fewer than two `sys.argv`
entries it prints the usage line.  Otherwise line 118 executes
`file_to_.process = sys.argv[1]`: this is an attribute assignment whose base
is the never-defined name `file_to_` (a typo for `file_to_process`), so
Python raises `NameError: name 'file_to_' is not defined` before
`separate_music` is ever called. -/
def cliMain (argv : List String) : CliOutcome :=
  if argv.length < 2 then CliOutcome.usage
  else CliOutcome.nameError "file_to_"

/-! ### The spec's reading of the token step (for the refinement claim C4)

The spec describes the token step as taking "the last *whitespace-delimited*
token on that line", i.e. Python `line.split()` with no argument.  The code
actually runs `line.split(" ")`, which splits on single spaces and keeps empty
fields.  The definitions below follow the spec's words, to be compared with
`inferModelName` above. -/

/-- A whitespace character of a single text line (Python `str.split()` with no
argument splits on runs of these). -/
def isPySpace (c : Char) : Bool :=
  c = ' ' || c = '\t' || c = '\r'

/-- Auxiliary for whitespace tokenisation: `acc` is the (reversed) current
token. -/
def wsTokensAux : List Char → List Char → List String
  | [], acc => if acc.isEmpty then [] else [String.mk acc.reverse]
  | c :: cs, acc =>
    if isPySpace c then
      if acc.isEmpty then wsTokensAux cs []
      else String.mk acc.reverse :: wsTokensAux cs []
    else wsTokensAux cs (c :: acc)

/-- Python `line.split()` with no argument: the whitespace-delimited tokens of
the line, with empty fields dropped. -/
def wsTokens (line : String) : List String :=
  wsTokensAux line.toList []

/-- Model-name inference as the spec words it: on the first marker line, take
the last *whitespace-delimited token* and strip surrounding quote/period
characters; otherwise the default. -/
def claimedModelName (stdout : String) : String :=
  match findMarkerLine (pySplitlines stdout) with
  | none => "htdemucs"
  | some line =>
    match (wsTokens line).getLast? with
    | none => "htdemucs"
    | some t => pyStrip stripChars t

/-! ### Concrete sanity checks of the model -/

/-- An environment for concrete evaluation: input present, tool succeeds with
a marker line, every output path exists. -/
def envOkc : Env :=
  { fsExists := fun _ => true, isFile := fun _ => true,
    tool := ToolResult.run 0 "Starting\nSelected model is 'mymodel'.\nDone\n" "",
    existsAfter := fun _ => true }

example : inferModelName "Selected model is 'mymodel'." = "mymodel" := by decide
example : inferModelName "nothing relevant\nat all" = "htdemucs" := by decide
example : (separate_music envOkc "uploads/song.mp3").ret
    = some "separated_output/mymodel/song" := by decide
example : separate_audio_endpoint envOkc "song.mp3"
    = Response.ok "Separation complete!" "separated_output/mymodel/song" := by decide
example : inferModelName "Selected model is 'mymodel'. " = "" := by decide
example : wsTokens "Selected model is 'mymodel'. " = ["Selected", "model", "is", "'mymodel'."] := by
  decide

/-! ### Helper lemmas about the marker-line scan -/

theorem findMarkerLine_eq_none (ls : List String)
    (h : ∀ l ∈ ls, hasMarker l = false) : findMarkerLine ls = none := by
  induction ls with
  | nil => rfl
  | cons a as ih =>
    have ha : hasMarker a = false := h a (by simp)
    simp only [findMarkerLine, ha, Bool.false_eq_true, if_false]
    exact ih (fun l hl => h l (by simp [hl]))

theorem findMarkerLine_append (pre post : List String) (l : String)
    (hpre : ∀ x ∈ pre, hasMarker x = false) (hl : hasMarker l = true) :
    findMarkerLine (pre ++ l :: post) = some l := by
  induction pre with
  | nil => simp [findMarkerLine, hl]
  | cons a as ih =>
    have ha : hasMarker a = false := hpre a (by simp)
    simp only [List.cons_append, findMarkerLine, ha, Bool.false_eq_true, if_false]
    exact ih (fun x hx => hpre x (by simp [hx]))

/-! ### The claims -/

/-- **C5.**  For every input path that does not exist or is not a regular
file, `separate_music` returns no-result (`none`) without invoking any
subprocess; being a total function of the environment, it raises nothing. -/
theorem C5_invalid_input_no_subprocess (env : Env) (p : String)
    (h : env.fsExists p = false ∨ env.isFile p = false) :
    (separate_music env p).ret = none ∧ (separate_music env p).invoked = false := by
  unfold separate_music
  rcases h with h | h
  · simp [h]
  · cases hex : env.fsExists p with
    | false => simp [hex]
    | true => simp [hex, h]

/-- An environment with no input file at all. -/
def envNoInput : Env :=
  { fsExists := fun _ => false, isFile := fun _ => false,
    tool := ToolResult.notFound, existsAfter := fun _ => false }

/-- Witness for C5: concrete missing input. -/
theorem C5_witness :
    (separate_music envNoInput "no_such.mp3").ret = none ∧
    (separate_music envNoInput "no_such.mp3").invoked = false :=
  C5_invalid_input_no_subprocess envNoInput "no_such.mp3" (Or.inl rfl)

/-- **C6.**  If the tool exits zero but the composed candidate path
`<fixed-output-dir>/<inferred-model-name>/<input-stem>` does not exist on
disk, `separate_music` returns the base output directory instead of
failing. -/
theorem C6_missing_candidate_falls_back (env : Env) (p out err : String)
    (hex : env.fsExists p = true) (hf : env.isFile p = true)
    (ht : env.tool = ToolResult.run 0 out err)
    (hmiss : env.existsAfter (output_dir ++ "/" ++ inferModelName out ++ "/" ++ pathStem p)
      = false) :
    (separate_music env p).ret = some output_dir := by
  unfold separate_music
  simp [hex, hf, ht, hmiss]

/-- An environment where the tool succeeds but never creates its announced
output directory. -/
def envNoOutput : Env :=
  { fsExists := fun _ => true, isFile := fun _ => true,
    tool := ToolResult.run 0 "Selected model is 'mymodel'.\n" "",
    existsAfter := fun _ => false }

/-- Witness for C6: concrete environment with no output created. -/
theorem C6_witness : (separate_music envNoOutput "uploads/song.mp3").ret = some output_dir :=
  C6_missing_candidate_falls_back envNoOutput "uploads/song.mp3"
    "Selected model is 'mymodel'.\n" "" rfl rfl rfl rfl

/-- **C9.**  If the `demucs` executable is not found on the execution path,
`separate_music` returns no-result after logging this distinctly, and raises
nothing to its caller; the HTTP response is the very same one produced for an
input error (an environment whose upload file is missing), so the HTTP layer
cannot distinguish the two. -/
theorem C9_tool_missing (env envBad : Env) (filename : String)
    (hex : env.fsExists (pathJoin "uploads" filename) = true)
    (hf : env.isFile (pathJoin "uploads" filename) = true)
    (ht : env.tool = ToolResult.notFound)
    (hbad : envBad.fsExists (pathJoin "uploads" filename) = false) :
    (separate_music env (pathJoin "uploads" filename)).ret = none ∧
    "Error: 'demucs' command not found."
      ∈ (separate_music env (pathJoin "uploads" filename)).log ∧
    separate_audio_endpoint env filename = separate_audio_endpoint envBad filename := by
  have h1 : (separate_music env (pathJoin "uploads" filename)).ret = none ∧
      "Error: 'demucs' command not found."
        ∈ (separate_music env (pathJoin "uploads" filename)).log := by
    unfold separate_music
    simp [hex, hf, ht]
  have h2 : (separate_music envBad (pathJoin "uploads" filename)).ret = none := by
    unfold separate_music
    simp [hbad]
  refine ⟨h1.1, h1.2, ?_⟩
  simp only [separate_audio_endpoint, h1.1, h2]

/-- An environment whose upload file is present but whose tool executable is
missing. -/
def envToolMissing : Env :=
  { fsExists := fun _ => true, isFile := fun _ => true,
    tool := ToolResult.notFound, existsAfter := fun _ => false }

/-- Witness for C9: tool missing versus input missing, same response. -/
theorem C9_witness :
    (separate_music envToolMissing (pathJoin "uploads" "song.mp3")).ret = none ∧
    "Error: 'demucs' command not found."
      ∈ (separate_music envToolMissing (pathJoin "uploads" "song.mp3")).log ∧
    separate_audio_endpoint envToolMissing "song.mp3"
      = separate_audio_endpoint envNoInput "song.mp3" :=
  C9_tool_missing envToolMissing envNoInput "song.mp3" rfl rfl rfl rfl

/-- **C3.**  Whenever `separate_music` returns no-result (`None`), the
endpoint responds with HTTP 500 and a detail message that states that
separation failed (the raised `HTTPException(500, "Separation failed. Check
server logs.")` is re-wrapped by the endpoint's own `except Exception`
clause, so the phrase appears inside the final detail string). -/
theorem C3_none_gives_500 (env : Env) (filename : String)
    (h : (separate_music env (pathJoin "uploads" filename)).ret = none) :
    separate_audio_endpoint env filename = Response.httpError 500 separationFailedDetail ∧
    pyContains "Separation failed" separationFailedDetail = true := by
  constructor
  · simp only [separate_audio_endpoint, h]
  · decide

/-- Witness for C3 at a concrete environment with a missing input file. -/
theorem C3_witness :
    separate_audio_endpoint envNoInput "song.mp3"
      = Response.httpError 500 separationFailedDetail ∧
    pyContains "Separation failed" separationFailedDetail = true :=
  C3_none_gives_500 envNoInput "song.mp3" rfl

/-- **C2.**  Evaluating the `__main__` block on any command line that does
provide a positional file argument: the typo `file_to_.process` on line 118
reads the unbound name `file_to_`, so the interpreter raises `NameError`
instead of running the separation — the entry point crashes for every
provided argument. -/
theorem C2_cli_crashes (argv : List String) (h : 2 ≤ argv.length) :
    cliMain argv = CliOutcome.nameError "file_to_" := by
  unfold cliMain
  have h2 : ¬ argv.length < 2 := by omega
  simp [h2]

/-- Witness for C2: the concrete invocation
`python run_separation.py song.mp3`. -/
theorem C2_witness :
    cliMain ["run_separation.py", "song.mp3"] = CliOutcome.nameError "file_to_" :=
  C2_cli_crashes ["run_separation.py", "song.mp3"] (by decide)

/-- **C10.**  If no line of the captured stdout contains the
`"Selected model"` or `"default model"` marker, the inferred model name is
exactly `"htdemucs"`, and the candidate result path used by `separate_music`
is `<fixed-output-dir>/htdemucs/<input-stem>`. -/
theorem C10_no_marker_default_model (env : Env) (p out err : String)
    (hex : env.fsExists p = true) (hf : env.isFile p = true)
    (ht : env.tool = ToolResult.run 0 out err)
    (hnomark : ∀ l ∈ pySplitlines out, hasMarker l = false)
    (hafter : env.existsAfter (output_dir ++ "/" ++ "htdemucs" ++ "/" ++ pathStem p) = true) :
    inferModelName out = "htdemucs" ∧
    (separate_music env p).ret = some (output_dir ++ "/" ++ "htdemucs" ++ "/" ++ pathStem p) := by
  have hm : inferModelName out = "htdemucs" := by
    unfold inferModelName
    rw [findMarkerLine_eq_none _ hnomark]
  refine ⟨hm, ?_⟩
  unfold separate_music
  simp [hex, hf, ht, hm, hafter]

/-- An environment whose tool output has no marker line and whose expected
output path exists. -/
def envNoMarker : Env :=
  { fsExists := fun _ => true, isFile := fun _ => true,
    tool := ToolResult.run 0 "Separating track song.mp3\n100%|some bar|\n" "",
    existsAfter := fun _ => true }

/-- Witness for C10 at a concrete marker-free stdout. -/
theorem C10_witness :
    inferModelName "Separating track song.mp3\n100%|some bar|\n" = "htdemucs" ∧
    (separate_music envNoMarker "uploads/song.mp3").ret
      = some (output_dir ++ "/" ++ "htdemucs" ++ "/" ++ pathStem "uploads/song.mp3") :=
  C10_no_marker_default_model envNoMarker "uploads/song.mp3"
    "Separating track song.mp3\n100%|some bar|\n" "" rfl rfl rfl (by decide) rfl

/-- **C7.**  On a fully successful run (tool exits zero and the candidate
path exists) `separate_music` returns
`<fixed-output-dir>/<inferred-model-name>/<input-stem>`, and the endpoint
responds 200 — `Response.ok` — with the success message and the string form
of that path. -/
theorem C7_success_path_and_response (env : Env) (filename out err : String)
    (hex : env.fsExists (pathJoin "uploads" filename) = true)
    (hf : env.isFile (pathJoin "uploads" filename) = true)
    (ht : env.tool = ToolResult.run 0 out err)
    (hafter : env.existsAfter
      (output_dir ++ "/" ++ inferModelName out ++ "/" ++ pathStem (pathJoin "uploads" filename))
      = true) :
    (separate_music env (pathJoin "uploads" filename)).ret
      = some (output_dir ++ "/" ++ inferModelName out ++ "/"
          ++ pathStem (pathJoin "uploads" filename)) ∧
    separate_audio_endpoint env filename
      = Response.ok "Separation complete!"
          (output_dir ++ "/" ++ inferModelName out ++ "/"
            ++ pathStem (pathJoin "uploads" filename)) := by
  have h1 : (separate_music env (pathJoin "uploads" filename)).ret
      = some (output_dir ++ "/" ++ inferModelName out ++ "/"
          ++ pathStem (pathJoin "uploads" filename)) := by
    unfold separate_music
    simp [hex, hf, ht, hafter]
  refine ⟨h1, ?_⟩
  simp only [separate_audio_endpoint, h1]

/-- Witness for C7: the concrete success environment `envOkc`. -/
theorem C7_witness :
    (separate_music envOkc (pathJoin "uploads" "song.mp3")).ret
      = some (output_dir ++ "/"
          ++ inferModelName "Starting\nSelected model is 'mymodel'.\nDone\n" ++ "/"
          ++ pathStem (pathJoin "uploads" "song.mp3")) ∧
    separate_audio_endpoint envOkc "song.mp3"
      = Response.ok "Separation complete!"
          (output_dir ++ "/"
            ++ inferModelName "Starting\nSelected model is 'mymodel'.\nDone\n" ++ "/"
            ++ pathStem (pathJoin "uploads" "song.mp3")) :=
  C7_success_path_and_response envOkc "song.mp3"
    "Starting\nSelected model is 'mymodel'.\nDone\n" "" rfl rfl rfl rfl

/-- An environment whose tool exits non-zero with recognisable captured
output. -/
def envToolFails : Env :=
  { fsExists := fun _ => true, isFile := fun _ => true,
    tool := ToolResult.run 2 "TOOL-STDOUT-TEXT" "TOOL-STDERR-TEXT",
    existsAfter := fun _ => true }

/-- **C1, counterexample.**  The input file exists and the tool exits with
status 2: `separate_music` *catches* the `CalledProcessError` itself and
returns `None` (nothing is propagated to the caller), and the resulting HTTP
500 body is the generic failure detail, which contains neither the tool's
stdout nor its stderr. -/
theorem C1_counterexample :
    (separate_music envToolFails (pathJoin "uploads" "song.mp3")).ret = none ∧
    separate_audio_endpoint envToolFails "song.mp3"
      = Response.httpError 500 separationFailedDetail ∧
    pyContains "TOOL-STDOUT-TEXT" separationFailedDetail = false ∧
    pyContains "TOOL-STDERR-TEXT" separationFailedDetail = false := by decide

/-- **C1 (amended).**  For every input file that exists and is a regular
file, if the tool exits non-zero the Runner treats it as a tool-invocation
failure: it returns no-result (`None`) rather than a path, logging the
captured stdout and stderr; the resulting HTTP response is a 500 whose body
is the generic separation-failure detail (the captured stdout/stderr are not
propagated to the caller and do not appear in the HTTP body). -/
theorem C1_nonzero_exit (env : Env) (filename out err : String) (code : Nat)
    (hex : env.fsExists (pathJoin "uploads" filename) = true)
    (hf : env.isFile (pathJoin "uploads" filename) = true)
    (ht : env.tool = ToolResult.run code out err) (hc : code ≠ 0) :
    (separate_music env (pathJoin "uploads" filename)).ret = none ∧
    out ∈ (separate_music env (pathJoin "uploads" filename)).log ∧
    err ∈ (separate_music env (pathJoin "uploads" filename)).log ∧
    separate_audio_endpoint env filename
      = Response.httpError 500 separationFailedDetail := by
  have h1 : (separate_music env (pathJoin "uploads" filename)).ret = none ∧
      out ∈ (separate_music env (pathJoin "uploads" filename)).log ∧
      err ∈ (separate_music env (pathJoin "uploads" filename)).log := by
    unfold separate_music
    simp [hex, hf, ht, hc]
  refine ⟨h1.1, h1.2.1, h1.2.2, ?_⟩
  simp only [separate_audio_endpoint, h1.1]

/-- Witness for the amended C1 at the concrete failing-tool environment. -/
theorem C1_witness :
    (separate_music envToolFails (pathJoin "uploads" "song.mp3")).ret = none ∧
    "TOOL-STDOUT-TEXT" ∈ (separate_music envToolFails (pathJoin "uploads" "song.mp3")).log ∧
    "TOOL-STDERR-TEXT" ∈ (separate_music envToolFails (pathJoin "uploads" "song.mp3")).log ∧
    separate_audio_endpoint envToolFails "song.mp3"
      = Response.httpError 500 separationFailedDetail :=
  C1_nonzero_exit envToolFails "song.mp3" "TOOL-STDOUT-TEXT" "TOOL-STDERR-TEXT" 2
    rfl rfl rfl (by decide)

/-- **C4, counterexample.**  On the marker line `"Selected model is
'mymodel'. "` — note the trailing space — the code's `line.split(" ")[-1]` is
the empty field after that space, so the inferred model name is `""`; the
last *whitespace-delimited token* of the line is `'mymodel'.`, which the
claim says strips to `mymodel`.  The claimed characterisation therefore
disagrees with the code. -/
theorem C4_counterexample :
    inferModelName "Selected model is 'mymodel'. " = "" ∧
    claimedModelName "Selected model is 'mymodel'. " = "mymodel" ∧
    inferModelName "Selected model is 'mymodel'. "
      ≠ claimedModelName "Selected model is 'mymodel'. " := by decide

/-- **C4 (amended).**  After a successful tool run, the Runner scans the
captured stdout line by line for the first line containing a selected-model
or default-model marker, takes the last field of that line when split on
*single space characters* (Python `split(" ")`, which keeps empty fields —
this equals the last whitespace-delimited token only when the line does not
end in whitespace) and strips surrounding quote/period characters; in
particular, for the line `Selected model is 'mymodel'.` the inferred model
name is exactly `mymodel`. -/
theorem C4_model_name_from_marker_line (stdout l : String) (pre post : List String)
    (hsplit : pySplitlines stdout = pre ++ l :: post)
    (hpre : ∀ x ∈ pre, hasMarker x = false) (hl : hasMarker l = true) :
    inferModelName stdout
      = (match (pySplit ' ' l).getLast? with
         | none => "htdemucs"
         | some t => pyStrip stripChars t) ∧
    (l = "Selected model is 'mymodel'." → inferModelName stdout = "mymodel") := by
  have hfind : findMarkerLine (pySplitlines stdout) = some l := by
    rw [hsplit]
    exact findMarkerLine_append pre post l hpre hl
  have hmain : inferModelName stdout
      = (match (pySplit ' ' l).getLast? with
         | none => "htdemucs"
         | some t => pyStrip stripChars t) := by
    unfold inferModelName
    rw [hfind]
  refine ⟨hmain, ?_⟩
  intro hml
  rw [hmain, hml]
  decide

/-- Witness for the amended C4 at the stdout consisting exactly of the
marker line of the claim's concrete instance. -/
theorem C4_witness :
    (inferModelName "Selected model is 'mymodel'."
      = (match (pySplit ' ' "Selected model is 'mymodel'.").getLast? with
         | none => "htdemucs"
         | some t => pyStrip stripChars t) ∧
    ("Selected model is 'mymodel'." = "Selected model is 'mymodel'." →
      inferModelName "Selected model is 'mymodel'." = "mymodel")) :=
  C4_model_name_from_marker_line "Selected model is 'mymodel'."
    "Selected model is 'mymodel'." [] [] (by decide) (by simp) (by decide)

/-- **C8.**  The Upload Handler writes the uploaded bytes to
`uploads/<client-supplied-filename>` (for an ordinary, non-absolute
filename, `Path("uploads") / filename` is exactly that path), truncating on
open: after two sequential uploads under the same filename, the bytes at the
shared path are exactly the second upload's bytes — no merge, no error. -/
theorem C8_overwrite (fs : String → Option (List Nat)) (filename : String)
    (b1 b2 : List Nat) (hrel : filename.toList.headD ' ' ≠ '/') :
    pathJoin "uploads" filename = "uploads/" ++ filename ∧
    saveUpload (saveUpload fs filename b1) filename b2 ("uploads/" ++ filename)
      = some b2 := by
  have hj : pathJoin "uploads" filename = "uploads/" ++ filename := by
    unfold pathJoin
    rw [if_neg hrel]
    rfl
  refine ⟨hj, ?_⟩
  unfold saveUpload
  rw [hj]
  simp

/-- Witness for C8: two concrete uploads of different bytes under the same
name. -/
theorem C8_witness :
    pathJoin "uploads" "song.mp3" = "uploads/" ++ "song.mp3" ∧
    saveUpload (saveUpload (fun _ => none) "song.mp3" [1, 2, 3]) "song.mp3" [9, 9]
      ("uploads/" ++ "song.mp3") = some [9, 9] :=
  C8_overwrite (fun _ => none) "song.mp3" [1, 2, 3] [9, 9] (by decide)

end MusicSep
